import Mathlib

/-!
Verification of the Cl2Larkinfo permission-request lifecycle against its
specification.  The TypeScript sources are embedded shallowly: `Date.now()`
becomes an explicit `now : Nat` argument (epoch milliseconds), the mutable
`Map`/KV state becomes an association list threaded through each operation,
and promise-returning methods become pure functions returning their result
together with the updated store state.
-/

set_option maxRecDepth 10000

namespace Cl2Lark

/-- Risk levels, from `src/lark/types.ts` (`riskLevel` union). -/
inductive RiskLevel
  | low
  | medium
  | high
  | critical
deriving DecidableEq, Repr

/-- Decision kinds, from `src/lark/types.ts` (`type Decision`). -/
inductive Decision
  | approve
  | deny
  | message
deriving DecidableEq, Repr

/-- Stored-request statuses, from `src/lark/types.ts` (`StoredRequest.status`). -/
inductive Status
  | pending
  | approved
  | denied
  | expired
  | message
deriving DecidableEq, Repr

/-- `PermissionRequest` from `src/lark/types.ts`.  `args` is an opaque
key-value payload (`Record<string, unknown>`), embedded as an association
list of strings; timestamps are epoch milliseconds. -/
structure PermissionRequest where
  requestId : String
  tool : String
  command : Option String
  description : Option String
  args : Option (List (String × String))
  workingDirectory : String
  project : String
  riskLevel : RiskLevel
  timestamp : Nat
  expiresAt : Nat
deriving DecidableEq, Repr

/-- `DecisionResponse` from `src/lark/types.ts`. -/
structure DecisionResponse where
  requestId : String
  decision : Decision
  message : Option String
  respondedAt : Nat
  respondedBy : Option String
deriving DecidableEq, Repr

/-- `StoredRequest` from `src/lark/types.ts`. -/
structure StoredRequest where
  request : PermissionRequest
  status : Status
  decision : Option DecisionResponse
  larkMessageId : Option String
  createdAt : Nat
deriving DecidableEq, Repr

/-! ### Association-list state

Both backends key records by a string request id.  `findEntry` is lookup,
`setEntry` is insert-or-replace (the effect of `Map.set` / `kv.set`). -/

def findEntry {α : Type} (l : List (String × α)) (id : String) : Option α :=
  match l with
  | [] => none
  | (k, v) :: rest => if k = id then some v else findEntry rest id

def setEntry {α : Type} (l : List (String × α)) (id : String) (v : α) :
    List (String × α) :=
  match l with
  | [] => [(id, v)]
  | (k, w) :: rest =>
      if k = id then (id, v) :: rest else (k, w) :: setEntry rest id v

/-! ### In-memory store (`src/store/memory-store.ts`)

The `Map<string, StoredRequest>` is the association list; the `timers`
map only schedules `handleExpiration` calls and clears them, which has no
effect on the stored records themselves, so the observable state is the
record map alone.  Each method takes the current time `now` explicitly. -/

abbrev MemStore := List (String × StoredRequest)

namespace MemoryStore

/-- `MemoryStore.set`: unconditional upsert (the timer arming is
scheduling only). -/
def set (store : MemStore) (requestId : String) (data : StoredRequest) :
    MemStore :=
  setEntry store requestId data

/-- `MemoryStore.get`: returns the record, lazily flipping a pending
record whose expiry has passed to `expired` (lines 39–53). -/
def get (store : MemStore) (now : Nat) (requestId : String) :
    Option StoredRequest × MemStore :=
  match findEntry store requestId with
  | none => (none, store)
  | some stored =>
      if stored.status = .pending ∧ stored.request.expiresAt ≤ now then
        let flipped := { stored with status := .expired }
        (some flipped, setEntry store requestId flipped)
      else
        (some stored, store)

/-- `MemoryStore.setDecision` (lines 55–105): fails on missing record or
non-pending status; expire-on-touch when the expiry has passed; otherwise
records the decision and returns `true`. -/
def setDecision (store : MemStore) (now : Nat) (requestId : String)
    (decision : Decision) (respondedBy : Option String)
    (message : Option String) : Bool × MemStore :=
  match findEntry store requestId with
  | none => (false, store)
  | some stored =>
      if stored.status ≠ .pending then
        (false, store)
      else if stored.request.expiresAt ≤ now then
        (false, setEntry store requestId { stored with status := .expired })
      else
        let newStatus : Status :=
          match decision with
          | .approve => .approved
          | .message => .message
          | .deny => .denied
        (true, setEntry store requestId
          { stored with
            status := newStatus
            decision := some
              { requestId := requestId
                decision := decision
                message := message
                respondedAt := now
                respondedBy := respondedBy } })

/-- `MemoryStore.setExpired` (lines 107–129). -/
def setExpired (store : MemStore) (requestId : String) : Bool × MemStore :=
  match findEntry store requestId with
  | none => (false, store)
  | some stored =>
      if stored.status ≠ .pending then
        (false, store)
      else
        (true, setEntry store requestId { stored with status := .expired })

/-- `MemoryStore.handleExpiration` (lines 141–148): the one-shot timer
body; flips a still-pending record to `expired`, otherwise leaves the
store alone. -/
def handleExpiration (store : MemStore) (requestId : String) : MemStore :=
  match findEntry store requestId with
  | none => store
  | some stored =>
      if stored.status = .pending then
        setEntry store requestId { stored with status := .expired }
      else
        store

end MemoryStore

/-! ### Vercel KV store (`src/store/kv-store.ts`)

A KV entry is the stored value plus its absolute eviction instant
(`kv.set(key, data, { ex: ttlSeconds })` evicts the key `ttlSeconds`
seconds later).  `rawGet` models a read: an entry past its eviction
instant behaves as absent.  `Math.ceil(ttlMs / 1000)` on a possibly
negative JS number agrees with `ceilDiv` on truncated-at-zero `Nat`
subtraction once clamped by the surrounding `Math.max`. -/

structure KVEntry where
  value : StoredRequest
  evictAt : Nat
deriving DecidableEq, Repr

abbrev KVState := List (String × KVEntry)

def ceilDiv (a b : Nat) : Nat := (a + b - 1) / b

namespace KVStore

/-- KV read with TTL eviction. -/
def rawGet (kv : KVState) (now : Nat) (requestId : String) :
    Option StoredRequest :=
  match findEntry kv requestId with
  | none => none
  | some e => if now < e.evictAt then some e.value else none

/-- `KVStore.get` (lines 40–43): a plain read, no expiry flip. -/
def get (kv : KVState) (now : Nat) (requestId : String) :
    Option StoredRequest :=
  rawGet kv now requestId

/-- `KVStore.set` (lines 30–38): upsert with TTL
`max(1, ceil((expiresAt − now) / 1000))` seconds. -/
def set (kv : KVState) (now : Nat) (requestId : String)
    (data : StoredRequest) : KVState :=
  let ttlMs := data.request.expiresAt - now
  let ttlSeconds := max 1 (ceilDiv ttlMs 1000)
  setEntry kv requestId { value := data, evictAt := now + ttlSeconds * 1000 }

/-- `KVStore.setDecision` (lines 45–78): fails on missing record or
non-pending status; otherwise writes
`status = decision === 'approve' ? 'approved' : 'denied'` with a decision
stamp carrying no message text, under TTL
`max(60, ceil((expiresAt − now) / 1000))` seconds.  There is no expiry
check and no `message` parameter. -/
def setDecision (kv : KVState) (now : Nat) (requestId : String)
    (decision : Decision) (respondedBy : Option String) : Bool × KVState :=
  match rawGet kv now requestId with
  | none => (false, kv)
  | some stored =>
      if stored.status ≠ .pending then
        (false, kv)
      else
        let updated : StoredRequest :=
          { stored with
            status := if decision = .approve then .approved else .denied
            decision := some
              { requestId := requestId
                decision := decision
                message := none
                respondedAt := now
                respondedBy := respondedBy } }
        let ttlMs := stored.request.expiresAt - now
        let ttlSeconds := max 60 (ceilDiv ttlMs 1000)
        (true, setEntry kv requestId
          { value := updated, evictAt := now + ttlSeconds * 1000 })

/-- `KVStore.setExpired` (lines 80–99): compare-and-swap from `pending`
to `expired`, retained for 60 seconds. -/
def setExpired (kv : KVState) (now : Nat) (requestId : String) :
    Bool × KVState :=
  match rawGet kv now requestId with
  | none => (false, kv)
  | some stored =>
      if stored.status ≠ .pending then
        (false, kv)
      else
        (true, setEntry kv requestId
          { value := { stored with status := .expired }
            evictAt := now + 60 * 1000 })

end KVStore

/-! ### Risk classification (`api/notify.ts`, `determineRiskLevel`)

The JS pattern lists use a small regex fragment: case-insensitive literal
runs, `\s+`, `\s*`, `.*`, and one optional two-letter group `(ba)?`.
`Tok` covers exactly these forms; `matchHere` matches a token list against
a prefix of the character list, and `regexSearch` gives `RegExp.test`'s
unanchored containment semantics. -/

inductive Tok
  | lit (c : Char)
  | ws1
  | ws0
  | any0
  | opt2 (a b : Char)
deriving DecidableEq, Repr

/-- JS `\s` on the ASCII range (the commands under test contain no
exotic unicode whitespace). -/
def isJsWs (c : Char) : Bool :=
  c = ' ' || c = '\t' || c = '\n' || c = '\r' || c = '\x0b' || c = '\x0c'

def tokWeight : Tok → Nat
  | .opt2 _ _ => 4
  | _ => 1

def toksWeight (ts : List Tok) : Nat := (ts.map tokWeight).sum

/-- Fuelled matcher: match the token list against some prefix of the
character list (case-insensitive; JS `.` without the `s` flag excludes
line terminators).  `cs.length + toksWeight ts` strictly decreases on
every recursive call, so any fuel above that bound gives the unfuelled
semantics; structural recursion on fuel keeps the function
kernel-reducible. -/
def matchHereF : Nat → List Tok → List Char → Bool
  | 0, _, _ => false
  | _ + 1, [], _ => true
  | _ + 1, .lit _ :: _, [] => false
  | f + 1, .lit c :: ts, x :: xs =>
      (x.toLower = c.toLower) && matchHereF f ts xs
  | _ + 1, .ws1 :: _, [] => false
  | f + 1, .ws1 :: ts, x :: xs =>
      isJsWs x && (matchHereF f ts xs || matchHereF f (.ws1 :: ts) xs)
  | f + 1, .ws0 :: ts, [] => matchHereF f ts []
  | f + 1, .ws0 :: ts, x :: xs =>
      matchHereF f ts (x :: xs) || (isJsWs x && matchHereF f (.ws0 :: ts) xs)
  | f + 1, .any0 :: ts, [] => matchHereF f ts []
  | f + 1, .any0 :: ts, x :: xs =>
      matchHereF f ts (x :: xs) ||
        ((x ≠ '\n' && x ≠ '\r') && matchHereF f (.any0 :: ts) xs)
  | f + 1, .opt2 a b :: ts, cs =>
      matchHereF f (.lit a :: .lit b :: ts) cs || matchHereF f ts cs

def matchHere (ts : List Tok) (cs : List Char) : Bool :=
  matchHereF (cs.length + toksWeight ts + 1) ts cs

/-- Unanchored search over all suffixes, the semantics of
`RegExp.prototype.test`. -/
def regexSearch (ts : List Tok) : List Char → Bool
  | [] => matchHere ts []
  | x :: xs => matchHere ts (x :: xs) || regexSearch ts xs

def testPat (ts : List Tok) (s : String) : Bool := regexSearch ts s.toList

/-- A run of case-insensitive literal characters. -/
def lits (s : String) : List Tok := s.toList.map Tok.lit

/-- `dangerousPatterns` (notify.ts lines 40–51), in source order. -/
def dangerousPatterns : List (List Tok) :=
  [ lits "rm" ++ [.ws1] ++ lits "-rf"
  , lits "rm" ++ [.ws1, .any0] ++ lits "-f"
  , lits "rmdir"
  , lits "format"
  , lits "mkfs"
  , lits "dd" ++ [.ws1] ++ lits "if="
  , lits ">" ++ [.ws0] ++ lits "/dev"
  , lits "chmod" ++ [.ws1] ++ lits "777"
  , lits "curl" ++ [.any0] ++ lits "|" ++ [.ws0, .opt2 'b' 'a'] ++ lits "sh"
  , lits "wget" ++ [.any0] ++ lits "|" ++ [.ws0, .opt2 'b' 'a'] ++ lits "sh" ]

/-- `highRiskPatterns` (notify.ts lines 53–61). -/
def highRiskPatterns : List (List Tok) :=
  [ lits "git" ++ [.ws1] ++ lits "push" ++ [.any0] ++ lits "-f"
  , lits "git" ++ [.ws1] ++ lits "reset" ++ [.any0] ++ lits "--hard"
  , lits "npm" ++ [.ws1] ++ lits "publish"
  , lits "docker" ++ [.ws1] ++ lits "rm"
  , lits "kubectl" ++ [.ws1] ++ lits "delete"
  , lits "drop" ++ [.ws1] ++ lits "database"
  , lits "truncate" ++ [.ws1] ++ lits "table" ]

/-- `mediumRiskPatterns` (notify.ts lines 63–70). -/
def mediumRiskPatterns : List (List Tok) :=
  [ lits "npm" ++ [.ws1] ++ lits "install"
  , lits "pip" ++ [.ws1] ++ lits "install"
  , lits "git" ++ [.ws1] ++ lits "checkout"
  , lits "git" ++ [.ws1] ++ lits "merge"
  , lits "docker" ++ [.ws1] ++ lits "run"
  , lits "kubectl" ++ [.ws1] ++ lits "apply" ]

/-- `determineRiskLevel` (notify.ts lines 39–101): cascade critical →
high → medium → shell-tool default → low; within a tier the JS loop
returns on the first matching pattern, which for a boolean result is
`List.any` over the tier in order. -/
def determineRiskLevel (tool : String) (command : Option String) :
    RiskLevel :=
  let cmdStr := command.getD ""
  if dangerousPatterns.any (fun p => testPat p cmdStr) then .critical
  else if highRiskPatterns.any (fun p => testPat p cmdStr) then .high
  else if mediumRiskPatterns.any (fun p => testPat p cmdStr) then .medium
  else if tool = "Bash" then .medium
  else .low

/-! ### JS string helpers -/

/-- `String.prototype.trim`, on the whitespace actually present in the
payloads under test. -/
def trimChars (cs : List Char) : List Char :=
  ((cs.dropWhile isJsWs).reverse.dropWhile isJsWs).reverse

def jsTrim (s : String) : String := ⟨trimChars s.data⟩

/-- JS `a || b` on optional strings: `a` unless it is absent or empty. -/
def jsOr (a b : Option String) : Option String :=
  match a with
  | some s => if s = "" then b else some s
  | none => b

/-- JS falsiness of an optional string (`!x`): absent or empty. -/
def jsFalsy (a : Option String) : Bool :=
  match a with
  | some s => s = ""
  | none => true

def statusStr : Status → String
  | .pending => "pending"
  | .approved => "approved"
  | .denied => "denied"
  | .expired => "expired"
  | .message => "message"

/-! ### Poll handler (`api/status/[id].ts`)

Embedded from the point where method, authentication and the presence of
the `id` parameter have been checked; those guards touch no store state.
The response is the `StatusResponse` JSON body. -/

/-- `StatusResponse` statuses (`src/lark/types.ts`), the stored statuses
plus `not_found`. -/
inductive PollStatus
  | pending
  | approved
  | denied
  | expired
  | message
  | not_found
deriving DecidableEq, Repr

def statusToPoll : Status → PollStatus
  | .pending => .pending
  | .approved => .approved
  | .denied => .denied
  | .expired => .expired
  | .message => .message

/-- `StatusResponse` from `src/lark/types.ts`. -/
structure StatusResponse where
  status : PollStatus
  decision : Option Decision
  message : Option String
  respondedAt : Option Nat
deriving DecidableEq, Repr

/-- Build the non-expired-branch response (lines 88–99 of the status
handler): decision fields are copied when a decision is present, and
`message` only when it is JS-truthy. -/
def buildStatusResponse (stored : StoredRequest) : StatusResponse :=
  { status := statusToPoll stored.status
    decision := stored.decision.map (·.decision)
    message := stored.decision.bind fun d =>
      match d.message with
      | some m => if m = "" then none else some m
      | none => none
    respondedAt := stored.decision.map (·.respondedAt) }

/-- The status poll handler over the memory backend (lines 63–104 of
`api/status/[id].ts`), returning the response body and the store state. -/
def statusHandlerMem (store : MemStore) (now : Nat) (id : String) :
    StatusResponse × MemStore :=
  match MemoryStore.get store now id with
  | (none, store') =>
      ({ status := .not_found, decision := none, message := none
         respondedAt := none }, store')
  | (some stored, store') =>
      if stored.status = .pending ∧ stored.request.expiresAt ≤ now then
        let (_, store'') := MemoryStore.setExpired store' id
        ({ status := .expired, decision := none, message := none
           respondedAt := none }, store'')
      else
        (buildStatusResponse stored, store')

/-- The status poll handler over the KV backend. -/
def statusHandlerKV (kv : KVState) (now : Nat) (id : String) :
    StatusResponse × KVState :=
  match KVStore.get kv now id with
  | none =>
      ({ status := .not_found, decision := none, message := none
         respondedAt := none }, kv)
  | some stored =>
      if stored.status = .pending ∧ stored.request.expiresAt ≤ now then
        let (_, kv') := KVStore.setExpired kv now id
        ({ status := .expired, decision := none, message := none
           respondedAt := none }, kv')
      else
        (buildStatusResponse stored, kv)

/-! ### Callback handler (`api/lark/callback.ts`, `handleCardAction`)

Embedded from the point where the verification token has been accepted
(that guard touches no store state).  The card-update Gateway calls are
external effects outside the store model.  The action payload's
`decision` arrives as a raw string (`""` for a missing field); the
optional free-text fields are `form_value?.user_message` and
`input_value`. -/

/-- The JSON bodies `handleCardAction` can answer with. -/
inductive CbResponse
  | emptyAck
  | invalidDecision
  | toastWarning (content : String)
  | toastError (content : String)
  | toastInfo (content : String)
  | toastSuccess (content : String)
deriving DecidableEq, Repr

/-- HTTP status of each callback response: only the unknown-decision
rejection is a transport-level error. -/
def CbResponse.httpStatus : CbResponse → Nat
  | .invalidDecision => 400
  | _ => 200

/-- Success toast per decision kind (lines 150–168). -/
def decisionToast (d : Decision) : CbResponse :=
  match d with
  | .approve => .toastSuccess "Approved successfully"
  | .message => .toastSuccess "Message sent successfully"
  | .deny => .toastInfo "Denied successfully"

/-- `handleCardAction` over the memory backend (lines 42–168). -/
def handleCardActionMem (store : MemStore) (now : Nat) (requestId : String)
    (decisionStr : String) (formValue inputValue : Option String)
    (operatorId : String) : CbResponse × MemStore :=
  if requestId = "" ∨ decisionStr = "" then
    (.emptyAck, store)
  else if decisionStr ≠ "approve" ∧ decisionStr ≠ "deny" ∧
      decisionStr ≠ "message" then
    (.invalidDecision, store)
  else
    let d : Decision :=
      if decisionStr = "approve" then .approve
      else if decisionStr = "message" then .message
      else .deny
    let rawText := jsOr formValue inputValue
    if d = .message ∧ (jsFalsy rawText ∨ jsTrim (rawText.getD "") = "") then
      (.toastWarning "Please enter a message", store)
    else
      let userMessage : Option String :=
        if d = .message then rawText.map jsTrim else none
      match MemoryStore.get store now requestId with
      | (none, store') =>
          (.toastError "Request not found or already processed", store')
      | (some stored, store') =>
          if stored.status ≠ .pending then
            (.toastInfo ("Request already " ++ statusStr stored.status),
             store')
          else if stored.request.expiresAt ≤ now then
            let (_, store'') := MemoryStore.setExpired store' requestId
            (.toastError "Request has expired", store'')
          else
            let (ok, store'') := MemoryStore.setDecision store' now requestId
              d (some operatorId) userMessage
            if ok then (decisionToast d, store'')
            else (.toastError "Failed to process decision", store'')

/-- `handleCardAction` over the KV backend.  `store.setDecision` is
called with the user message as fourth argument, but `KVStore.setDecision`
declares only three parameters, so the message never reaches the KV
write. -/
def handleCardActionKV (kv : KVState) (now : Nat) (requestId : String)
    (decisionStr : String) (formValue inputValue : Option String)
    (operatorId : String) : CbResponse × KVState :=
  if requestId = "" ∨ decisionStr = "" then
    (.emptyAck, kv)
  else if decisionStr ≠ "approve" ∧ decisionStr ≠ "deny" ∧
      decisionStr ≠ "message" then
    (.invalidDecision, kv)
  else
    let d : Decision :=
      if decisionStr = "approve" then .approve
      else if decisionStr = "message" then .message
      else .deny
    let rawText := jsOr formValue inputValue
    if d = .message ∧ (jsFalsy rawText ∨ jsTrim (rawText.getD "") = "") then
      (.toastWarning "Please enter a message", kv)
    else
      match KVStore.get kv now requestId with
      | none =>
          (.toastError "Request not found or already processed", kv)
      | some stored =>
          if stored.status ≠ .pending then
            (.toastInfo ("Request already " ++ statusStr stored.status), kv)
          else if stored.request.expiresAt ≤ now then
            let (_, kv') := KVStore.setExpired kv now requestId
            (.toastError "Request has expired", kv')
          else
            let (ok, kv') := KVStore.setDecision kv now requestId d
              (some operatorId)
            if ok then (decisionToast d, kv')
            else (.toastError "Failed to process decision", kv')

/-! ### Notify handler (`api/notify.ts`)

Embedded from the point where the POST-method and API-key guards have
passed (they touch no store state and create nothing).  The impure
inputs — `randomUUID()`, `Date.now()`, the configured timeout, and the
message id returned by the Lark send — are explicit parameters.  The
outcome records the HTTP response together with the store write and the
notification send the handler performed, so "creates nothing" is
expressible. -/

/-- `NotifyRequest` from `src/lark/types.ts`; absent JSON fields are
`none`, and an empty string is JS-falsy like an absent one. -/
structure NotifyBody where
  tool : Option String
  command : Option String
  description : Option String
  args : Option (List (String × String))
  workingDirectory : Option String
  project : Option String
  riskLevel : Option RiskLevel
deriving DecidableEq, Repr

structure NotifyOutcome where
  httpStatus : Nat
  success : Bool
  storeWrite : Option (String × StoredRequest)
  notificationSent : Option PermissionRequest
  responseData : Option (String × Nat)
deriving DecidableEq, Repr

/-- `workingDirectory.split('/').pop()`: JS `split` never yields an
empty array, so `pop` is the last fragment (possibly `""`). -/
def splitSlash (cs : List Char) : List (List Char) :=
  match cs with
  | [] => [[]]
  | c :: rest =>
      let r := splitSlash rest
      if c = '/' then [] :: r
      else
        match r with
        | h :: t => (c :: h) :: t
        | [] => [[c]]

def lastPathSegment (wd : String) : String :=
  ⟨(splitSlash wd.data).getLastD []⟩

/-- `body.project || body.workingDirectory.split('/').pop() || 'Unknown'`
(notify.ts line 147). -/
def projectName (project : Option String) (wd : String) : String :=
  (jsOr (jsOr project (some (lastPathSegment wd))) (some "Unknown")).getD
    "Unknown"

/-- The notify handler core (notify.ts lines 126–186).  The
`PermissionRequest` literal at lines 150–160 carries no `description`
field, so the stored and notified request always has `description =
none`. -/
def notifyHandler (body : NotifyBody) (freshId : String) (now : Nat)
    (timeout : Nat) (larkMsgId : String) : NotifyOutcome :=
  if jsFalsy body.tool ∨ jsFalsy body.workingDirectory then
    { httpStatus := 400, success := false, storeWrite := none
      notificationSent := none, responseData := none }
  else
    let tool := body.tool.getD ""
    let wd := body.workingDirectory.getD ""
    let expiresAt := now + timeout
    let riskLevel :=
      match body.riskLevel with
      | some r => r
      | none => determineRiskLevel tool body.command
    let project := projectName body.project wd
    let permissionRequest : PermissionRequest :=
      { requestId := freshId
        tool := tool
        command := body.command
        description := none
        args := body.args
        workingDirectory := wd
        project := project
        riskLevel := riskLevel
        timestamp := now
        expiresAt := expiresAt }
    let storedRequest : StoredRequest :=
      { request := permissionRequest
        status := .pending
        decision := none
        larkMessageId := some larkMsgId
        createdAt := now }
    { httpStatus := 200
      success := true
      storeWrite := some (freshId, storedRequest)
      notificationSent := some permissionRequest
      responseData := some (freshId, expiresAt) }

/-- Status written by a successful decision (memory backend,
memory-store.ts lines 78–85). -/
def decisionStatus : Decision → Status
  | .approve => .approved
  | .message => .message
  | .deny => .denied

/-- The record written by a successful `MemoryStore.setDecision`. -/
def memDecided (stored : StoredRequest) (requestId : String) (d : Decision)
    (rb msg : Option String) (now : Nat) : StoredRequest :=
  { stored with
    status := decisionStatus d
    decision := some
      { requestId := requestId, decision := d, message := msg
        respondedAt := now, respondedBy := rb } }

/-- The record written by a successful `KVStore.setDecision`: `message`
kind collapses to `denied`, and no message text is stored. -/
def kvDecided (stored : StoredRequest) (requestId : String) (d : Decision)
    (rb : Option String) (now : Nat) : StoredRequest :=
  { stored with
    status := if d = .approve then .approved else .denied
    decision := some
      { requestId := requestId, decision := d, message := none
        respondedAt := now, respondedBy := rb } }

/-! ### Status-changing operation sequences

The status-changing operations named by the monotonicity invariant:
`setDecision`, `setExpired` and (for the volatile backend) the one-shot
timer body `handleExpiration`; each carries its target id and, where the
source reads `Date.now()`, its call time. -/

inductive MemOp
  | setDecision (now : Nat) (id : String) (d : Decision)
      (rb msg : Option String)
  | setExpired (id : String)
  | timerExpire (id : String)

def runMemOp (store : MemStore) : MemOp → MemStore
  | .setDecision now id d rb msg =>
      (MemoryStore.setDecision store now id d rb msg).2
  | .setExpired id => (MemoryStore.setExpired store id).2
  | .timerExpire id => MemoryStore.handleExpiration store id

def runMemOps (store : MemStore) : List MemOp → MemStore
  | [] => store
  | op :: rest => runMemOps (runMemOp store op) rest

inductive KVOp
  | setDecision (now : Nat) (id : String) (d : Decision) (rb : Option String)
  | setExpired (now : Nat) (id : String)

def runKVOp (kv : KVState) : KVOp → KVState
  | .setDecision now id d rb => (KVStore.setDecision kv now id d rb).2
  | .setExpired now id => (KVStore.setExpired kv now id).2

def runKVOps (kv : KVState) : List KVOp → KVState
  | [] => kv
  | op :: rest => runKVOps (runKVOp kv op) rest

/-- The callback validation phase lets the action through to the store:
the decision kind is one of the three accepted strings and, for the
message kind, the extracted text survives the emptiness check. -/
def cbReachesStore (ds : String) (fv iv : Option String) : Prop :=
  ds = "approve" ∨ ds = "deny" ∨
    (ds = "message" ∧ jsFalsy (jsOr fv iv) = false ∧
      jsTrim ((jsOr fv iv).getD "") ≠ "")

/-! ### Concrete fixtures

A small pending request used to instantiate the theorems; `kvFix1` is a
KV state reached by an ordinary `set`, whose second-granular TTL keeps
the record readable until 900 ms past its expiry instant. -/

def sampleRequest (expiresAt : Nat) : PermissionRequest :=
  { requestId := "r1", tool := "Bash", command := some "ls -la"
    description := none, args := none
    workingDirectory := "/home/dev/proj", project := "proj"
    riskLevel := .medium, timestamp := 0, expiresAt := expiresAt }

def samplePending (expiresAt : Nat) : StoredRequest :=
  { request := sampleRequest expiresAt, status := .pending
    decision := none, larkMessageId := some "om_1", createdAt := 0 }

def memFix (expiresAt : Nat) : MemStore := [("r1", samplePending expiresAt)]

/-- KV state after `set` at t=1900 of a record expiring at t=2000:
TTL is `max 1 (ceil(100/1000)) = 1` second, so eviction at t=2900. -/
def kvFix1 : KVState := KVStore.set [] 1900 "r1" (samplePending 2000)

/-- KV state after `set` at t=0 of a record expiring at t=120000:
TTL 120 s, eviction exactly at the expiry instant. -/
def kvFix6 : KVState := KVStore.set [] 0 "r1" (samplePending 120000)

/-- KV state after `set` at t=0 of a record expiring at t=300000. -/
def kvFix5 : KVState := KVStore.set [] 0 "r1" (samplePending 300000)

/-! ### Association-list lemmas -/

theorem findEntry_setEntry_self {α : Type} (l : List (String × α)) (id : String)
    (v : α) : findEntry (setEntry l id v) id = some v := by
  induction l with
  | nil => simp [findEntry, setEntry]
  | cons hd tl ih =>
      obtain ⟨k, w⟩ := hd
      by_cases hk : k = id
      · simp [findEntry, setEntry, hk]
      · simp [findEntry, setEntry, hk, ih]

theorem findEntry_setEntry_other {α : Type} (l : List (String × α))
    (id j : String) (v : α) (hne : j ≠ id) :
    findEntry (setEntry l id v) j = findEntry l j := by
  have hne' : id ≠ j := fun h => hne h.symm
  induction l with
  | nil => simp [findEntry, setEntry, hne']
  | cons hd tl ih =>
      obtain ⟨k, w⟩ := hd
      by_cases hk : k = id
      · subst hk
        simp [findEntry, setEntry, hne']
      · by_cases hj : k = j
        · subst hj
          simp [findEntry, setEntry, hk]
        · simp [findEntry, setEntry, hk, hj, ih]

/-! ### Characterization lemmas for the store operations -/

theorem mem_setDecision_none {store : MemStore} {id : String}
    (now : Nat) (d : Decision) (rb msg : Option String)
    (h : findEntry store id = none) :
    MemoryStore.setDecision store now id d rb msg = (false, store) := by
  simp [MemoryStore.setDecision, h]

theorem mem_setDecision_nonpending {store : MemStore} {id : String}
    {stored : StoredRequest} (now : Nat) (d : Decision)
    (rb msg : Option String) (h : findEntry store id = some stored)
    (hs : stored.status ≠ .pending) :
    MemoryStore.setDecision store now id d rb msg = (false, store) := by
  simp [MemoryStore.setDecision, h, hs]

theorem mem_setDecision_expired {store : MemStore} {id : String}
    {stored : StoredRequest} {now : Nat} (d : Decision)
    (rb msg : Option String) (h : findEntry store id = some stored)
    (hs : stored.status = .pending) (he : stored.request.expiresAt ≤ now) :
    MemoryStore.setDecision store now id d rb msg =
      (false, setEntry store id { stored with status := .expired }) := by
  simp [MemoryStore.setDecision, h, hs, he]

theorem mem_setDecision_success {store : MemStore} {id : String}
    {stored : StoredRequest} {now : Nat} (d : Decision)
    (rb msg : Option String) (h : findEntry store id = some stored)
    (hs : stored.status = .pending) (he : now < stored.request.expiresAt) :
    MemoryStore.setDecision store now id d rb msg =
      (true, setEntry store id (memDecided stored id d rb msg now)) := by
  have he' : ¬ stored.request.expiresAt ≤ now := by omega
  cases d <;>
    simp [MemoryStore.setDecision, h, hs, he', memDecided, decisionStatus]

theorem mem_setExpired_none {store : MemStore} {id : String}
    (h : findEntry store id = none) :
    MemoryStore.setExpired store id = (false, store) := by
  simp [MemoryStore.setExpired, h]

theorem mem_setExpired_nonpending {store : MemStore} {id : String}
    {stored : StoredRequest} (h : findEntry store id = some stored)
    (hs : stored.status ≠ .pending) :
    MemoryStore.setExpired store id = (false, store) := by
  simp [MemoryStore.setExpired, h, hs]

theorem mem_setExpired_pending {store : MemStore} {id : String}
    {stored : StoredRequest} (h : findEntry store id = some stored)
    (hs : stored.status = .pending) :
    MemoryStore.setExpired store id =
      (true, setEntry store id { stored with status := .expired }) := by
  simp [MemoryStore.setExpired, h, hs]

theorem mem_handleExpiration_nonpending {store : MemStore} {id : String}
    {stored : StoredRequest} (h : findEntry store id = some stored)
    (hs : stored.status ≠ .pending) :
    MemoryStore.handleExpiration store id = store := by
  simp [MemoryStore.handleExpiration, h, hs]

theorem mem_get_flip {store : MemStore} {id : String}
    {stored : StoredRequest} {now : Nat}
    (h : findEntry store id = some stored) (hs : stored.status = .pending)
    (he : stored.request.expiresAt ≤ now) :
    MemoryStore.get store now id =
      (some { stored with status := .expired },
       setEntry store id { stored with status := .expired }) := by
  simp [MemoryStore.get, h, hs, he]

theorem mem_get_noflip {store : MemStore} {id : String}
    {stored : StoredRequest} {now : Nat}
    (h : findEntry store id = some stored)
    (hcond : ¬ (stored.status = .pending ∧ stored.request.expiresAt ≤ now)) :
    MemoryStore.get store now id = (some stored, store) := by
  simp only [MemoryStore.get, h]
  rw [if_neg hcond]

theorem kv_setDecision_none {kv : KVState} {id : String}
    (now : Nat) (d : Decision) (rb : Option String)
    (h : KVStore.rawGet kv now id = none) :
    KVStore.setDecision kv now id d rb = (false, kv) := by
  simp [KVStore.setDecision, h]

theorem kv_setDecision_nonpending {kv : KVState} {id : String}
    {stored : StoredRequest} {now : Nat} (d : Decision) (rb : Option String)
    (h : KVStore.rawGet kv now id = some stored)
    (hs : stored.status ≠ .pending) :
    KVStore.setDecision kv now id d rb = (false, kv) := by
  simp [KVStore.setDecision, h, hs]

theorem kv_setDecision_pending {kv : KVState} {id : String}
    {stored : StoredRequest} {now : Nat} (d : Decision) (rb : Option String)
    (h : KVStore.rawGet kv now id = some stored)
    (hs : stored.status = .pending) :
    KVStore.setDecision kv now id d rb =
      (true, setEntry kv id
        { value := kvDecided stored id d rb now
          evictAt := now +
            (max 60 (ceilDiv (stored.request.expiresAt - now) 1000)) *
              1000 }) := by
  simp [KVStore.setDecision, h, hs, kvDecided]

theorem kv_setExpired_none {kv : KVState} {id : String} {now : Nat}
    (h : KVStore.rawGet kv now id = none) :
    KVStore.setExpired kv now id = (false, kv) := by
  simp [KVStore.setExpired, h]

theorem kv_setExpired_nonpending {kv : KVState} {id : String}
    {stored : StoredRequest} {now : Nat}
    (h : KVStore.rawGet kv now id = some stored)
    (hs : stored.status ≠ .pending) :
    KVStore.setExpired kv now id = (false, kv) := by
  simp [KVStore.setExpired, h, hs]

theorem kv_setExpired_pending {kv : KVState} {id : String}
    {stored : StoredRequest} {now : Nat}
    (h : KVStore.rawGet kv now id = some stored)
    (hs : stored.status = .pending) :
    KVStore.setExpired kv now id =
      (true, setEntry kv id
        { value := { stored with status := .expired }
          evictAt := now + 60 * 1000 }) := by
  simp [KVStore.setExpired, h, hs]

/-- `ceilDiv a b * b` dominates `a` for positive `b`. -/
theorem ceilDiv_mul_ge (a b : Nat) (hb : 0 < b) : a ≤ ceilDiv a b * b := by
  unfold ceilDiv
  rw [Nat.mul_comm]
  have hdm := Nat.div_add_mod (a + b - 1) b
  have hlt : (a + b - 1) % b < b := Nat.mod_lt _ hb
  omega

theorem mem_handleExpiration_none {store : MemStore} {id : String}
    (h : findEntry store id = none) :
    MemoryStore.handleExpiration store id = store := by
  simp [MemoryStore.handleExpiration, h]

theorem mem_handleExpiration_pending {store : MemStore} {id : String}
    {stored : StoredRequest} (h : findEntry store id = some stored)
    (hs : stored.status = .pending) :
    MemoryStore.handleExpiration store id =
      setEntry store id { stored with status := .expired } := by
  simp [MemoryStore.handleExpiration, h, hs]

theorem runMemOp_preserves_nonpending (op : MemOp) (store : MemStore)
    (id : String) (stored : StoredRequest)
    (h1 : findEntry store id = some stored)
    (h2 : stored.status ≠ .pending) :
    findEntry (runMemOp store op) id = some stored := by
  cases op with
  | setDecision now j d rb msg =>
      by_cases hj : j = id
      · subst hj
        rw [runMemOp, mem_setDecision_nonpending now d rb msg h1 h2]
        exact h1
      · have hne : id ≠ j := fun h => hj h.symm
        rw [runMemOp]
        cases hfind : findEntry store j with
        | none => rw [mem_setDecision_none now d rb msg hfind]; exact h1
        | some s =>
            by_cases hs : s.status = .pending
            · by_cases hexp : s.request.expiresAt ≤ now
              · rw [mem_setDecision_expired d rb msg hfind hs hexp,
                  findEntry_setEntry_other _ _ _ _ hne]
                exact h1
              · have hlt : now < s.request.expiresAt := by omega
                rw [mem_setDecision_success d rb msg hfind hs hlt,
                  findEntry_setEntry_other _ _ _ _ hne]
                exact h1
            · rw [mem_setDecision_nonpending now d rb msg hfind hs]
              exact h1
  | setExpired j =>
      by_cases hj : j = id
      · subst hj
        rw [runMemOp, mem_setExpired_nonpending h1 h2]
        exact h1
      · have hne : id ≠ j := fun h => hj h.symm
        rw [runMemOp]
        cases hfind : findEntry store j with
        | none => rw [mem_setExpired_none hfind]; exact h1
        | some s =>
            by_cases hs : s.status = .pending
            · rw [mem_setExpired_pending hfind hs,
                findEntry_setEntry_other _ _ _ _ hne]
              exact h1
            · rw [mem_setExpired_nonpending hfind hs]
              exact h1
  | timerExpire j =>
      by_cases hj : j = id
      · subst hj
        rw [runMemOp, mem_handleExpiration_nonpending h1 h2]
        exact h1
      · have hne : id ≠ j := fun h => hj h.symm
        rw [runMemOp]
        cases hfind : findEntry store j with
        | none => rw [mem_handleExpiration_none hfind]; exact h1
        | some s =>
            by_cases hs : s.status = .pending
            · rw [mem_handleExpiration_pending hfind hs,
                findEntry_setEntry_other _ _ _ _ hne]
              exact h1
            · rw [mem_handleExpiration_nonpending hfind hs]
              exact h1

theorem runMemOps_preserves_nonpending (ops : List MemOp) (store : MemStore)
    (id : String) (stored : StoredRequest)
    (h1 : findEntry store id = some stored)
    (h2 : stored.status ≠ .pending) :
    findEntry (runMemOps store ops) id = some stored := by
  induction ops generalizing store with
  | nil => exact h1
  | cons op rest ih =>
      exact ih _ (runMemOp_preserves_nonpending op store id stored h1 h2)

theorem rawGet_of_findEntry {kv : KVState} {id : String} {e : KVEntry}
    (now : Nat) (h : findEntry kv id = some e) :
    KVStore.rawGet kv now id =
      if now < e.evictAt then some e.value else none := by
  simp [KVStore.rawGet, h]

theorem runKVOp_preserves_nonpending (op : KVOp) (kv : KVState)
    (id : String) (e : KVEntry) (h1 : findEntry kv id = some e)
    (h2 : e.value.status ≠ .pending) :
    findEntry (runKVOp kv op) id = some e := by
  cases op with
  | setDecision now j d rb =>
      by_cases hj : j = id
      · subst hj
        rw [runKVOp]
        by_cases hev : now < e.evictAt
        · rw [kv_setDecision_nonpending d rb
            (by rw [rawGet_of_findEntry now h1, if_pos hev]) h2]
          exact h1
        · rw [kv_setDecision_none now d rb
            (by rw [rawGet_of_findEntry now h1, if_neg hev])]
          exact h1
      · have hne : id ≠ j := fun h => hj h.symm
        rw [runKVOp]
        cases hget : KVStore.rawGet kv now j with
        | none => rw [kv_setDecision_none now d rb hget]; exact h1
        | some s =>
            by_cases hs : s.status = .pending
            · rw [kv_setDecision_pending d rb hget hs,
                findEntry_setEntry_other _ _ _ _ hne]
              exact h1
            · rw [kv_setDecision_nonpending d rb hget hs]
              exact h1
  | setExpired now j =>
      by_cases hj : j = id
      · subst hj
        rw [runKVOp]
        by_cases hev : now < e.evictAt
        · rw [kv_setExpired_nonpending
            (by rw [rawGet_of_findEntry now h1, if_pos hev]) h2]
          exact h1
        · rw [kv_setExpired_none
            (by rw [rawGet_of_findEntry now h1, if_neg hev])]
          exact h1
      · have hne : id ≠ j := fun h => hj h.symm
        rw [runKVOp]
        cases hget : KVStore.rawGet kv now j with
        | none => rw [kv_setExpired_none hget]; exact h1
        | some s =>
            by_cases hs : s.status = .pending
            · rw [kv_setExpired_pending hget hs,
                findEntry_setEntry_other _ _ _ _ hne]
              exact h1
            · rw [kv_setExpired_nonpending hget hs]
              exact h1

theorem runKVOps_preserves_nonpending (ops : List KVOp) (kv : KVState)
    (id : String) (e : KVEntry) (h1 : findEntry kv id = some e)
    (h2 : e.value.status ≠ .pending) :
    findEntry (runKVOps kv ops) id = some e := by
  induction ops generalizing kv with
  | nil => exact h1
  | cons op rest ih =>
      exact ih _ (runKVOp_preserves_nonpending op kv id e h1 h2)

/-! ### Claim C1 -/

/-- C1, counterexample to the claim as stated: in the KV backend a
decision arriving after the expiry instant, while the record is still
readable (second-granular TTL), is accepted — `setDecision` returns
`true` and writes `approved`, instead of returning `false` and flipping
the record to `expired` as the claim requires of both backends.  The
state is reached by a plain `set` at t=1900 of a record expiring at
t=2000; the decision arrives at t=2100. -/
theorem C1_kv_decision_accepted_after_expiry :
    KVStore.rawGet kvFix1 2100 "r1" = some (samplePending 2000) ∧
    (samplePending 2000).status = .pending ∧
    (samplePending 2000).request.expiresAt ≤ 2100 ∧
    (KVStore.setDecision kvFix1 2100 "r1" .approve (some "u1")).1 = true ∧
    ((findEntry (KVStore.setDecision kvFix1 2100 "r1" .approve
        (some "u1")).2 "r1").map fun e => e.value.status) =
      some .approved := by
  decide

/-- C1 (amended): the memory backend satisfies the claim in full —
`setDecision` succeeds exactly when the record exists, is pending and
the call time is strictly before `expiresAt`; a pending record at or
past expiry is flipped to `expired` with a `false` return
(expire-on-touch); any other failure leaves the store untouched.  The
KV backend instead succeeds exactly when the record is readable and
pending, with no expiry-time check and no expire-on-touch; its failures
leave the state untouched. -/
theorem C1_setDecision_semantics :
    (∀ (store : MemStore) (now : Nat) (id : String) (d : Decision)
        (rb msg : Option String),
      (MemoryStore.setDecision store now id d rb msg).1 = true ↔
        ∃ stored, findEntry store id = some stored ∧
          stored.status = .pending ∧ now < stored.request.expiresAt) ∧
    (∀ (store : MemStore) (now : Nat) (id : String) (d : Decision)
        (rb msg : Option String) (stored : StoredRequest),
      findEntry store id = some stored → stored.status = .pending →
      stored.request.expiresAt ≤ now →
      MemoryStore.setDecision store now id d rb msg =
        (false, setEntry store id { stored with status := .expired })) ∧
    (∀ (store : MemStore) (now : Nat) (id : String) (d : Decision)
        (rb msg : Option String),
      (findEntry store id = none ∨
        ∃ stored, findEntry store id = some stored ∧
          stored.status ≠ .pending) →
      MemoryStore.setDecision store now id d rb msg = (false, store)) ∧
    (∀ (kv : KVState) (now : Nat) (id : String) (d : Decision)
        (rb : Option String),
      (KVStore.setDecision kv now id d rb).1 = true ↔
        ∃ stored, KVStore.rawGet kv now id = some stored ∧
          stored.status = .pending) ∧
    (∀ (kv : KVState) (now : Nat) (id : String) (d : Decision)
        (rb : Option String),
      (KVStore.setDecision kv now id d rb).1 = false →
      (KVStore.setDecision kv now id d rb).2 = kv) := by
  refine ⟨?_, ?_, ?_, ?_, ?_⟩
  · intro store now id d rb msg
    constructor
    · intro htrue
      cases hfind : findEntry store id with
      | none =>
          rw [mem_setDecision_none now d rb msg hfind] at htrue
          simp at htrue
      | some s =>
          by_cases hs : s.status = .pending
          · by_cases he : s.request.expiresAt ≤ now
            · rw [mem_setDecision_expired d rb msg hfind hs he] at htrue
              simp at htrue
            · exact ⟨s, hfind ▸ rfl, hs, by omega⟩
          · rw [mem_setDecision_nonpending now d rb msg hfind hs] at htrue
            simp at htrue
    · rintro ⟨s, hfind, hs, he⟩
      rw [mem_setDecision_success d rb msg hfind hs he]
  · intro store now id d rb msg stored hfind hs he
    exact mem_setDecision_expired d rb msg hfind hs he
  · rintro store now id d rb msg (hnone | ⟨s, hfind, hs⟩)
    · exact mem_setDecision_none now d rb msg hnone
    · exact mem_setDecision_nonpending now d rb msg hfind hs
  · intro kv now id d rb
    constructor
    · intro htrue
      cases hget : KVStore.rawGet kv now id with
      | none =>
          rw [kv_setDecision_none now d rb hget] at htrue
          simp at htrue
      | some s =>
          by_cases hs : s.status = .pending
          · exact ⟨s, hget ▸ rfl, hs⟩
          · rw [kv_setDecision_nonpending d rb hget hs] at htrue
            simp at htrue
    · rintro ⟨s, hget, hs⟩
      rw [kv_setDecision_pending d rb hget hs]
  · intro kv now id d rb hfalse
    cases hget : KVStore.rawGet kv now id with
    | none => rw [kv_setDecision_none now d rb hget]
    | some s =>
        by_cases hs : s.status = .pending
        · rw [kv_setDecision_pending d rb hget hs] at hfalse
          simp at hfalse
        · rw [kv_setDecision_nonpending d rb hget hs]

/-- C1 witness: the expire-on-touch conjunct at a concrete input — a
pending memory record expiring at t=2000 touched by a decision at
t=2100 is flipped to `expired` with a `false` result. -/
theorem C1_setDecision_semantics_witness :
    MemoryStore.setDecision (memFix 2000) 2100 "r1" .approve none none =
      (false, setEntry (memFix 2000) "r1"
        { samplePending 2000 with status := .expired }) :=
  C1_setDecision_semantics.2.1 (memFix 2000) 2100 "r1" .approve none none
    (samplePending 2000) (by decide) (by decide) (by decide)

/-! ### Claim C2 -/

/-- C2, counterexample to the claim as stated: in the KV backend a
store `get` on a request past `expiresAt` with no prior decision does
not yield `expired` — the raw read returns the record still `pending`
(reachable because the TTL set at creation is rounded up to whole
seconds: the record expiring at t=2000 stays readable until t=2900). -/
theorem C2_kv_get_returns_stale_pending :
    (samplePending 2000).request.expiresAt ≤ 2100 ∧
    (samplePending 2000).decision = none ∧
    KVStore.get kvFix1 2100 "r1" = some (samplePending 2000) ∧
    ((KVStore.get kvFix1 2100 "r1").map (·.status)) ≠ some .expired := by
  decide

/-- C2 (amended): in the memory backend, `get` on a pending request past
expiry flips it to `expired` and returns `expired`, and `expired` is a
fixed point of `get`.  In both backends the poll handler and the
callback handler flip such a request to `expired`, report it expired,
and repeated touches keep reporting `expired` without further change.
The KV raw store `get`, however, performs no flip: it returns the entry
exactly as stored, so within the TTL rounding window a time-expired
record is still returned as `pending`. -/
theorem C2_expire_on_touch :
    (∀ (store : MemStore) (now : Nat) (id : String)
        (stored : StoredRequest),
      findEntry store id = some stored → stored.status = .pending →
      stored.request.expiresAt ≤ now →
      MemoryStore.get store now id =
        (some { stored with status := .expired },
         setEntry store id { stored with status := .expired })) ∧
    (∀ (store : MemStore) (now : Nat) (id : String)
        (stored : StoredRequest),
      findEntry store id = some stored → stored.status = .expired →
      MemoryStore.get store now id = (some stored, store)) ∧
    (∀ (store : MemStore) (now : Nat) (id : String)
        (stored : StoredRequest),
      findEntry store id = some stored → stored.status = .pending →
      stored.request.expiresAt ≤ now →
      (statusHandlerMem store now id).1.status = .expired ∧
      findEntry (statusHandlerMem store now id).2 id =
        some { stored with status := .expired }) ∧
    (∀ (store : MemStore) (now : Nat) (id : String)
        (stored : StoredRequest),
      findEntry store id = some stored → stored.status = .expired →
      statusHandlerMem store now id = (buildStatusResponse stored, store) ∧
      (buildStatusResponse stored).status = .expired) ∧
    (∀ (kv : KVState) (now : Nat) (id : String) (stored : StoredRequest),
      KVStore.rawGet kv now id = some stored → stored.status = .pending →
      stored.request.expiresAt ≤ now →
      (statusHandlerKV kv now id).1.status = .expired ∧
      findEntry (statusHandlerKV kv now id).2 id =
        some { value := { stored with status := .expired }
               evictAt := now + 60 * 1000 }) ∧
    (∀ (kv : KVState) (now : Nat) (id : String) (stored : StoredRequest),
      KVStore.rawGet kv now id = some stored → stored.status = .expired →
      statusHandlerKV kv now id = (buildStatusResponse stored, kv) ∧
      (buildStatusResponse stored).status = .expired) ∧
    (∀ (store : MemStore) (now : Nat) (id ds : String)
        (fv iv : Option String) (op : String) (stored : StoredRequest),
      id ≠ "" → cbReachesStore ds fv iv →
      findEntry store id = some stored → stored.status = .pending →
      stored.request.expiresAt ≤ now →
      handleCardActionMem store now id ds fv iv op =
        (.toastInfo "Request already expired",
         setEntry store id { stored with status := .expired })) ∧
    (∀ (store : MemStore) (now : Nat) (id ds : String)
        (fv iv : Option String) (op : String) (stored : StoredRequest),
      id ≠ "" → cbReachesStore ds fv iv →
      findEntry store id = some stored → stored.status = .expired →
      handleCardActionMem store now id ds fv iv op =
        (.toastInfo "Request already expired", store)) ∧
    (∀ (kv : KVState) (now : Nat) (id ds : String)
        (fv iv : Option String) (op : String) (stored : StoredRequest),
      id ≠ "" → cbReachesStore ds fv iv →
      KVStore.rawGet kv now id = some stored → stored.status = .pending →
      stored.request.expiresAt ≤ now →
      handleCardActionKV kv now id ds fv iv op =
        (.toastError "Request has expired",
         setEntry kv id { value := { stored with status := .expired }
                          evictAt := now + 60 * 1000 })) ∧
    (∀ (kv : KVState) (now : Nat) (id ds : String)
        (fv iv : Option String) (op : String) (stored : StoredRequest),
      id ≠ "" → cbReachesStore ds fv iv →
      KVStore.rawGet kv now id = some stored → stored.status = .expired →
      handleCardActionKV kv now id ds fv iv op =
        (.toastInfo "Request already expired", kv)) ∧
    (∀ (kv : KVState) (now : Nat) (id : String) (e : KVEntry),
      findEntry kv id = some e → now < e.evictAt →
      KVStore.get kv now id = some e.value) := by
  refine ⟨?_, ?_, ?_, ?_, ?_, ?_, ?_, ?_, ?_, ?_, ?_⟩
  · intro store now id stored hfind hs he
    exact mem_get_flip hfind hs he
  · intro store now id stored hfind hs
    exact mem_get_noflip hfind (by simp [hs])
  · intro store now id stored hfind hs he
    rw [statusHandlerMem, mem_get_flip hfind hs he]
    refine ⟨by simp [buildStatusResponse, statusToPoll], ?_⟩
    simp [findEntry_setEntry_self]
  · intro store now id stored hfind hs
    rw [statusHandlerMem, mem_get_noflip hfind (by simp [hs])]
    refine ⟨by simp [hs], by simp [buildStatusResponse, hs, statusToPoll]⟩
  · intro kv now id stored hget hs he
    simp only [statusHandlerKV, KVStore.get, hget]
    rw [if_pos ⟨hs, he⟩]
    simp only [kv_setExpired_pending hget hs]
    exact ⟨trivial, findEntry_setEntry_self _ _ _⟩
  · intro kv now id stored hget hs
    simp only [statusHandlerKV, KVStore.get, hget]
    rw [if_neg (by simp [hs])]
    exact ⟨rfl, by simp [buildStatusResponse, hs, statusToPoll]⟩
  · intro store now id ds fv iv op stored hid hds hfind hs he
    have hget := mem_get_flip hfind hs he
    rcases hds with rfl | rfl | ⟨rfl, hfv, htr⟩ <;>
      simp [handleCardActionMem, hid, hget, statusStr, *]
  · intro store now id ds fv iv op stored hid hds hfind hs
    have hget : MemoryStore.get store now id = (some stored, store) :=
      mem_get_noflip hfind (by simp [hs])
    rcases hds with rfl | rfl | ⟨rfl, hfv, htr⟩ <;>
      simp [handleCardActionMem, hid, hget, hs, statusStr, *]
  · intro kv now id ds fv iv op stored hid hds hget hs he
    rcases hds with rfl | rfl | ⟨rfl, hfv, htr⟩ <;>
      simp [handleCardActionKV, hid, KVStore.get, hget, hs, he,
        kv_setExpired_pending hget hs, *]
  · intro kv now id ds fv iv op stored hid hds hget hs
    rcases hds with rfl | rfl | ⟨rfl, hfv, htr⟩ <;>
      simp [handleCardActionKV, hid, KVStore.get, hget, hs, statusStr, *]
  · intro kv now id e hfind hev
    rw [KVStore.get, rawGet_of_findEntry now hfind, if_pos hev]

/-- C2 witness: the memory-poll conjunct at a concrete input — polling
a pending request past its expiry reports `expired` and stores the
`expired` status. -/
theorem C2_expire_on_touch_witness :
    (statusHandlerMem (memFix 2000) 2100 "r1").1.status = .expired ∧
    findEntry (statusHandlerMem (memFix 2000) 2100 "r1").2 "r1" =
      some { samplePending 2000 with status := .expired } :=
  C2_expire_on_touch.2.2.1 (memFix 2000) 2100 "r1" (samplePending 2000)
    (by decide) (by decide) (by decide)

/-! ### Claim C3 -/

theorem decisionStatus_ne_pending (d : Decision) :
    decisionStatus d ≠ .pending := by
  cases d <;> simp [decisionStatus]

theorem kvDecided_status_ne_pending (stored : StoredRequest) (id : String)
    (d : Decision) (rb : Option String) (now : Nat) :
    (kvDecided stored id d rb now).status ≠ .pending := by
  cases d <;> simp [kvDecided]

/-- C3: status transitions are monotonic.  Each status-changing
operation — `setDecision` and `setExpired` in both backends, and the
volatile backend's timer body — leaves the store untouched (returning
`false` where it returns at all) whenever the target record's status is
not `pending`; consequently a record in any terminal status (approved,
denied, expired, message — i.e. anything but `pending`) survives every
sequence of these operations unchanged. -/
theorem C3_status_monotonic :
    (∀ (store : MemStore) (now : Nat) (id : String) (d : Decision)
        (rb msg : Option String) (stored : StoredRequest),
      findEntry store id = some stored → stored.status ≠ .pending →
      MemoryStore.setDecision store now id d rb msg = (false, store)) ∧
    (∀ (store : MemStore) (id : String) (stored : StoredRequest),
      findEntry store id = some stored → stored.status ≠ .pending →
      MemoryStore.setExpired store id = (false, store)) ∧
    (∀ (store : MemStore) (id : String) (stored : StoredRequest),
      findEntry store id = some stored → stored.status ≠ .pending →
      MemoryStore.handleExpiration store id = store) ∧
    (∀ (kv : KVState) (now : Nat) (id : String) (d : Decision)
        (rb : Option String) (stored : StoredRequest),
      KVStore.rawGet kv now id = some stored → stored.status ≠ .pending →
      KVStore.setDecision kv now id d rb = (false, kv)) ∧
    (∀ (kv : KVState) (now : Nat) (id : String) (stored : StoredRequest),
      KVStore.rawGet kv now id = some stored → stored.status ≠ .pending →
      KVStore.setExpired kv now id = (false, kv)) ∧
    (∀ (ops : List MemOp) (store : MemStore) (id : String)
        (stored : StoredRequest),
      findEntry store id = some stored → stored.status ≠ .pending →
      findEntry (runMemOps store ops) id = some stored) ∧
    (∀ (ops : List KVOp) (kv : KVState) (id : String) (e : KVEntry),
      findEntry kv id = some e → e.value.status ≠ .pending →
      findEntry (runKVOps kv ops) id = some e) := by
  refine ⟨?_, ?_, ?_, ?_, ?_, ?_, ?_⟩
  · intro store now id d rb msg stored hfind hs
    exact mem_setDecision_nonpending now d rb msg hfind hs
  · intro store id stored hfind hs
    exact mem_setExpired_nonpending hfind hs
  · intro store id stored hfind hs
    exact mem_handleExpiration_nonpending hfind hs
  · intro kv now id d rb stored hget hs
    exact kv_setDecision_nonpending d rb hget hs
  · intro kv now id stored hget hs
    exact kv_setExpired_nonpending hget hs
  · intro ops store id stored hfind hs
    exact runMemOps_preserves_nonpending ops store id stored hfind hs
  · intro ops kv id e hfind hs
    exact runKVOps_preserves_nonpending ops kv id e hfind hs

/-- C3 witness: an approved memory record survives a decision attempt,
an expiry attempt and a timer expiry unchanged. -/
theorem C3_status_monotonic_witness :
    findEntry
      (runMemOps [("r1", { samplePending 300000 with status := .approved })]
        [.setDecision 10 "r1" .deny none none, .setExpired "r1",
         .timerExpire "r1"]) "r1" =
      some { samplePending 300000 with status := .approved } :=
  C3_status_monotonic.2.2.2.2.2.1
    [.setDecision 10 "r1" .deny none none, .setExpired "r1",
     .timerExpire "r1"]
    [("r1", { samplePending 300000 with status := .approved })] "r1"
    { samplePending 300000 with status := .approved }
    (by decide) (by decide)

/-! ### Claim C4 -/

/-- C4: `applyDecision` is idempotent under repetition.  In both
backends, the first `setDecision` on a pending, unexpired record
succeeds and performs exactly one write (the decided record); every
subsequent `setDecision` on the same id — any decision kind, any later
or earlier time — returns `false` and leaves the store exactly as the
first call left it. -/
theorem C4_applyDecision_idempotent :
    (∀ (store : MemStore) (now : Nat) (id : String) (d : Decision)
        (rb msg : Option String) (stored : StoredRequest),
      findEntry store id = some stored → stored.status = .pending →
      now < stored.request.expiresAt →
      MemoryStore.setDecision store now id d rb msg =
        (true, setEntry store id (memDecided stored id d rb msg now)) ∧
      (∀ (now' : Nat) (d' : Decision) (rb' msg' : Option String),
        MemoryStore.setDecision
          (setEntry store id (memDecided stored id d rb msg now))
          now' id d' rb' msg' =
          (false,
           setEntry store id (memDecided stored id d rb msg now)))) ∧
    (∀ (kv : KVState) (now : Nat) (id : String) (d : Decision)
        (rb : Option String) (stored : StoredRequest),
      KVStore.rawGet kv now id = some stored → stored.status = .pending →
      now < stored.request.expiresAt →
      KVStore.setDecision kv now id d rb =
        (true, setEntry kv id
          { value := kvDecided stored id d rb now
            evictAt := now +
              (max 60 (ceilDiv (stored.request.expiresAt - now) 1000)) *
                1000 }) ∧
      (∀ (now' : Nat) (d' : Decision) (rb' : Option String),
        KVStore.setDecision
          (setEntry kv id
            { value := kvDecided stored id d rb now
              evictAt := now +
                (max 60 (ceilDiv (stored.request.expiresAt - now) 1000)) *
                  1000 })
          now' id d' rb' =
          (false,
           setEntry kv id
             { value := kvDecided stored id d rb now
               evictAt := now +
                 (max 60 (ceilDiv (stored.request.expiresAt - now) 1000)) *
                   1000 }))) := by
  constructor
  · intro store now id d rb msg stored hfind hs he
    refine ⟨mem_setDecision_success d rb msg hfind hs he, ?_⟩
    intro now' d' rb' msg'
    have hfind' :
        findEntry (setEntry store id (memDecided stored id d rb msg now))
          id = some (memDecided stored id d rb msg now) :=
      findEntry_setEntry_self _ _ _
    exact mem_setDecision_nonpending now' d' rb' msg' hfind'
      (decisionStatus_ne_pending d)
  · intro kv now id d rb stored hget hs he
    refine ⟨kv_setDecision_pending d rb hget hs, ?_⟩
    intro now' d' rb'
    set e : KVEntry :=
      { value := kvDecided stored id d rb now
        evictAt := now +
          (max 60 (ceilDiv (stored.request.expiresAt - now) 1000)) *
            1000 } with hedef
    have hfind' : findEntry (setEntry kv id e) id = some e :=
      findEntry_setEntry_self _ _ _
    by_cases hev : now' < e.evictAt
    · exact kv_setDecision_nonpending d' rb'
        (by rw [rawGet_of_findEntry now' hfind', if_pos hev])
        (kvDecided_status_ne_pending stored id d rb now)
    · exact kv_setDecision_none now' d' rb'
        (by rw [rawGet_of_findEntry now' hfind', if_neg hev])

/-- C4 witness: a concrete pending, unexpired memory record — the first
decision succeeds, a repeated contrary decision fails and changes
nothing. -/
theorem C4_applyDecision_idempotent_witness :
    MemoryStore.setDecision (memFix 300000) 100 "r1" .approve
      (some "u1") none =
      (true, setEntry (memFix 300000) "r1"
        (memDecided (samplePending 300000) "r1" .approve (some "u1") none
          100)) ∧
    MemoryStore.setDecision
      (setEntry (memFix 300000) "r1"
        (memDecided (samplePending 300000) "r1" .approve (some "u1") none
          100)) 200 "r1" .deny (some "u2") none =
      (false, setEntry (memFix 300000) "r1"
        (memDecided (samplePending 300000) "r1" .approve (some "u1") none
          100)) := by
  have h := C4_applyDecision_idempotent.1 (memFix 300000) 100 "r1" .approve
    (some "u1") none (samplePending 300000) (by decide) (by decide)
    (by decide)
  exact ⟨h.1, h.2 200 .deny (some "u2") none⟩

/-! ### Claim C5 -/

/-- C5: evaluation at the failing input.  The same callback — a
message-kind decision with text payload `"  retry with sudo  "` on a
pending, unexpired record — behaves as the claim states on the memory
backend (status `message`, trimmed text stored), but on the KV backend
`setDecision` maps the message kind to status `denied` and drops the
text entirely (its KV write has no message field), while the handler
still answers "Message sent successfully". -/
theorem C5_kv_message_decision_divergence :
    (handleCardActionMem (memFix 300000) 100 "r1" "message"
        (some "  retry with sudo  ") none "op1").1 =
      .toastSuccess "Message sent successfully" ∧
    ((findEntry (handleCardActionMem (memFix 300000) 100 "r1" "message"
        (some "  retry with sudo  ") none "op1").2 "r1").map
      (·.status)) = some .message ∧
    (((findEntry (handleCardActionMem (memFix 300000) 100 "r1" "message"
        (some "  retry with sudo  ") none "op1").2 "r1").bind
      (·.decision)).map (·.message)) = some (some "retry with sudo") ∧
    (handleCardActionKV kvFix5 100 "r1" "message"
        (some "  retry with sudo  ") none "op1").1 =
      .toastSuccess "Message sent successfully" ∧
    ((findEntry (handleCardActionKV kvFix5 100 "r1" "message"
        (some "  retry with sudo  ") none "op1").2 "r1").map
      (·.value.status)) = some .denied ∧
    ((((findEntry (handleCardActionKV kvFix5 100 "r1" "message"
        (some "  retry with sudo  ") none "op1").2 "r1").map
      (·.value)).bind (·.decision)).map (·.message)) = some none := by
  decide

/-! ### Claim C6 -/

/-- C6, counterexample to the claim as stated: a decision at t=0 on a
KV record expiring at t=120000 succeeds with storage TTL
`max(60, ceil(120000/1000)) = 120` seconds — eviction at t=120000,
strictly less than the `ceil((expiresAt − now)/1000) + 60 = 180`
seconds the claim requires; the decided state is already unreadable one
second past the original expiry. -/
theorem C6_ttl_not_extended :
    (KVStore.setDecision kvFix6 0 "r1" .approve none).1 = true ∧
    ((findEntry (KVStore.setDecision kvFix6 0 "r1" .approve none).2
        "r1").map (·.evictAt)) = some 120000 ∧
    120000 <
      0 + (ceilDiv ((samplePending 120000).request.expiresAt - 0) 1000
        + 60) * 1000 ∧
    KVStore.get (KVStore.setDecision kvFix6 0 "r1" .approve none).2
      121000 "r1" = none := by
  decide

/-- C6 (amended): a successful KV `setDecision` writes the decided
record with storage TTL `max(60, ceil((expiresAt − now)/1000))`
seconds, so the final state stays readable for at least 60 seconds
after the decision instant and at least until the original expiry —
but not, in general, 60 seconds past the original expiry. -/
theorem C6_ttl_semantics :
    ∀ (kv : KVState) (now : Nat) (id : String) (d : Decision)
      (rb : Option String) (stored : StoredRequest),
      KVStore.rawGet kv now id = some stored → stored.status = .pending →
      ∃ e : KVEntry,
        findEntry (KVStore.setDecision kv now id d rb).2 id = some e ∧
        e.value = kvDecided stored id d rb now ∧
        e.evictAt = now +
          (max 60 (ceilDiv (stored.request.expiresAt - now) 1000)) *
            1000 ∧
        now + 60 * 1000 ≤ e.evictAt ∧
        stored.request.expiresAt ≤ e.evictAt := by
  intro kv now id d rb stored hget hs
  rw [kv_setDecision_pending d rb hget hs]
  refine ⟨_, findEntry_setEntry_self _ _ _, rfl, rfl, ?_, ?_⟩
  · dsimp only
    have h60 : 60 ≤ max 60 (ceilDiv (stored.request.expiresAt - now) 1000) :=
      le_max_left _ _
    have := Nat.mul_le_mul_right 1000 h60
    omega
  · dsimp only
    rcases Nat.le_total stored.request.expiresAt now with hle | hle
    · omega
    · have hc : stored.request.expiresAt - now ≤
          ceilDiv (stored.request.expiresAt - now) 1000 * 1000 :=
        ceilDiv_mul_ge _ 1000 (by omega)
      have hm : ceilDiv (stored.request.expiresAt - now) 1000 ≤
          max 60 (ceilDiv (stored.request.expiresAt - now) 1000) :=
        le_max_right _ _
      have := Nat.mul_le_mul_right 1000 hm
      omega

/-- C6 witness: the amended TTL rule at a concrete input — decision at
t=100 on the record expiring at t=300000 keeps the record until
t=300100 (= 100 + 300 × 1000 ms). -/
theorem C6_ttl_semantics_witness :
    ∃ e : KVEntry,
      findEntry (KVStore.setDecision kvFix5 100 "r1" .approve none).2
        "r1" = some e ∧
      e.value = kvDecided (samplePending 300000) "r1" .approve none 100 ∧
      e.evictAt = 100 +
        (max 60 (ceilDiv ((samplePending 300000).request.expiresAt - 100)
          1000)) * 1000 ∧
      100 + 60 * 1000 ≤ e.evictAt ∧
      (samplePending 300000).request.expiresAt ≤ e.evictAt :=
  C6_ttl_semantics kvFix5 100 "r1" .approve none (samplePending 300000)
    (by decide) (by decide)

/-! ### Claim C7 -/

/-- C7: a callback action carrying a message-kind decision whose text
payload is absent, JS-empty, or whitespace-only after trimming is
answered with the warning toast `"Please enter a message"` over
HTTP 200, and the store — either backend — is left exactly as it was:
no store operation runs. -/
theorem C7_empty_message_soft_rejected :
    ∀ (store : MemStore) (kv : KVState) (now : Nat) (id : String)
      (fv iv : Option String) (op : String),
      id ≠ "" →
      (jsFalsy (jsOr fv iv) = true ∨ jsTrim ((jsOr fv iv).getD "") = "") →
      handleCardActionMem store now id "message" fv iv op =
        (.toastWarning "Please enter a message", store) ∧
      handleCardActionKV kv now id "message" fv iv op =
        (.toastWarning "Please enter a message", kv) ∧
      CbResponse.httpStatus (.toastWarning "Please enter a message") =
        200 := by
  intro store kv now id fv iv op hid htext
  refine ⟨?_, ?_, rfl⟩ <;>
    · rcases htext with h | h <;>
        simp [handleCardActionMem, handleCardActionKV, hid, h]

/-- C7 witness: a whitespace-only form payload on both backends. -/
theorem C7_empty_message_soft_rejected_witness :
    handleCardActionMem (memFix 300000) 100 "r1" "message" (some "   ")
      none "op1" =
      (.toastWarning "Please enter a message", memFix 300000) ∧
    handleCardActionKV kvFix5 100 "r1" "message" (some "   ") none
      "op1" =
      (.toastWarning "Please enter a message", kvFix5) ∧
    CbResponse.httpStatus (.toastWarning "Please enter a message") =
      200 :=
  C7_empty_message_soft_rejected (memFix 300000) kvFix5 100 "r1"
    (some "   ") none "op1" (by decide) (Or.inr (by decide))

/-! ### Claim C8 -/

/-- C8: the classifier's concrete values — `rm -rf /tmp/x` is critical,
`npm install left-pad` medium, `git push -f origin main` high,
`ls -la` medium purely by the bare-shell-tool default (no tier pattern
matches it, and a non-shell tool with the same command is low), and a
non-shell tool with no command is low.  The cascade tests critical,
then high, then medium, then the shell default, first match winning,
exactly as `determineRiskLevel` is written. -/
theorem C8_classifier_values :
    determineRiskLevel "Bash" (some "rm -rf /tmp/x") = .critical ∧
    determineRiskLevel "Bash" (some "npm install left-pad") = .medium ∧
    determineRiskLevel "Bash" (some "git push -f origin main") = .high ∧
    determineRiskLevel "Bash" (some "ls -la") = .medium ∧
    determineRiskLevel "ReadFile" none = .low ∧
    (dangerousPatterns.any fun p => testPat p "ls -la") = false ∧
    (highRiskPatterns.any fun p => testPat p "ls -la") = false ∧
    (mediumRiskPatterns.any fun p => testPat p "ls -la") = false ∧
    determineRiskLevel "ReadFile" (some "ls -la") = .low := by
  decide

/-! ### Claim C9 -/

/-- C9: a create request whose `tool` or `workingDirectory` is missing
(or JS-empty) is answered 400 with `success: false`, and the handler
creates nothing: no store write and no notification send. -/
theorem C9_create_missing_fields_rejected :
    ∀ (body : NotifyBody) (freshId : String) (now timeout : Nat)
      (msgId : String),
      (jsFalsy body.tool = true ∨ jsFalsy body.workingDirectory = true) →
      notifyHandler body freshId now timeout msgId =
        { httpStatus := 400, success := false, storeWrite := none
          notificationSent := none, responseData := none } := by
  intro body freshId now timeout msgId h
  unfold notifyHandler
  rw [if_pos (by rcases h with h | h <;> simp [h])]

/-- C9 witness: a body carrying only a working directory. -/
theorem C9_create_missing_fields_rejected_witness :
    notifyHandler
      { tool := none, command := some "ls", description := none
        args := none, workingDirectory := some "/w", project := none
        riskLevel := none } "id-1" 0 300000 "om_9" =
      { httpStatus := 400, success := false, storeWrite := none
        notificationSent := none, responseData := none } :=
  C9_create_missing_fields_rejected
    { tool := none, command := some "ls", description := none
      args := none, workingDirectory := some "/w", project := none
      riskLevel := none } "id-1" 0 300000 "om_9" (Or.inl (by decide))

/-! ### Claim C10 -/

/-- C10: every record the create handler writes — and the request it
sends to the notifier — has `description = none`, whatever description
the caller supplied: the `PermissionRequest` literal in `notify.ts`
omits the field. -/
theorem C10_description_never_stored :
    ∀ (body : NotifyBody) (freshId : String) (now timeout : Nat)
      (msgId : String),
      jsFalsy body.tool = false → jsFalsy body.workingDirectory = false →
      ∃ sr : StoredRequest,
        (notifyHandler body freshId now timeout msgId).storeWrite =
          some (freshId, sr) ∧
        sr.request.description = none ∧
        (notifyHandler body freshId now timeout msgId).notificationSent =
          some sr.request := by
  intro body freshId now timeout msgId ht hw
  unfold notifyHandler
  rw [if_neg (by simp [ht, hw])]
  exact ⟨_, rfl, rfl, rfl⟩

/-- C10 witness: a caller-supplied description is dropped. -/
theorem C10_description_never_stored_witness :
    ∃ sr : StoredRequest,
      (notifyHandler
        { tool := some "Bash", command := some "ls", description :=
            some "check workflow status", args := none
          workingDirectory := some "/home/dev/proj", project := none
          riskLevel := none } "id-2" 0 300000 "om_10").storeWrite =
        some ("id-2", sr) ∧
      sr.request.description = none ∧
      (notifyHandler
        { tool := some "Bash", command := some "ls", description :=
            some "check workflow status", args := none
          workingDirectory := some "/home/dev/proj", project := none
          riskLevel := none } "id-2" 0 300000 "om_10").notificationSent =
        some sr.request :=
  C10_description_never_stored
    { tool := some "Bash", command := some "ls", description :=
        some "check workflow status", args := none
      workingDirectory := some "/home/dev/proj", project := none
      riskLevel := none } "id-2" 0 300000 "om_10" (by decide) (by decide)

end Cl2Lark
